import Mathlib

/- Shallow embedding of django-codegen: src/django_codegen/generate.py and
   src/django_codegen/lib/codegen.py.  Python strings are Lean String, Python
   dicts with insertion order are association lists, Python exceptions are an
   error inductive, and the Jinja templates are expanded by hand following
   default Jinja semantics. -/

/-- Python str.split with a one-character separator: accumulator-based scan.
Mirrors argument.split and definition.split in the source. -/
def splitCharAux (c : Char) : List Char → List Char → List String
  | [], acc => [String.mk acc.reverse]
  | x :: xs, acc =>
    if x = c then String.mk acc.reverse :: splitCharAux c xs []
    else splitCharAux c xs (x :: acc)

/-- Python s.split(sep) for a one-character sep, e.g. pySplit s the colon. -/
def pySplit (s : String) (c : Char) : List String :=
  splitCharAux c s.data []

/-- Python runtime values stored in the all_arguments dict: either a string
segment, or the integer default 250 used by CharField. -/
inductive PyVal where
  | str (s : String)
  | int (n : Int)
  deriving DecidableEq

/-- Python str(v), as used when a value is interpolated by str.format. -/
def pyStr : PyVal → String
  | .str s => s
  | .int n => toString n

/-- The only Python type object appearing in required_arguments tuples. -/
inductive PyType where
  | int
  deriving DecidableEq

/-- Python typ dupd name attribute, used in the TypeError message. -/
def PyType.pyName : PyType → String
  | .int => "int"

/-- Digits check for the body of a Python int literal. -/
def allDigits : List Char → Bool
  | [] => true
  | c :: cs => c.isDigit && allDigits cs

/-- Whether Python int(s) succeeds on a string: optional sign then a nonempty
digit run.  Whitespace stripping and underscore grouping of int() are not
modelled; no claim depends on them. -/
def pyIntParses (s : String) : Bool :=
  match s.data with
  | [] => false
  | '-' :: cs => !cs.isEmpty && allDigits cs
  | '+' :: cs => !cs.isEmpty && allDigits cs
  | cs => !cs.isEmpty && allDigits cs

/-- Python typ(v) succeeding, for the conversion check typ(all_arguments[n]):
int applied to an int always succeeds, int applied to a string parses it. -/
def pyConvOk : PyType → PyVal → Bool
  | .int, .int _ => true
  | .int, .str s => pyIntParses s

/-- One entry of required_arguments: a bare string, or a (name, type, default)
tuple as in the Python source. -/
inductive RequiredArg where
  | bare (n : String)
  | typed (n : String) (ty : PyType) (d : PyVal)
  deriving DecidableEq

/-- Every failure the modelled code can raise.  keyError models an unguarded
Python KeyError from a dict lookup (argument_map or the registry); noneFormat
models the AttributeError from calling format on None after argument_map.get
returns None; the others model the dedicated raises in the source. -/
inductive CodegenError where
  | malformedFieldDefinition (raw : String)
  | keyError (k : String)
  | missingRequired (n : String)
  | typeMismatch (argName : String) (tyName : String)
  | noneFormat (k : String)
  | appDoesNotExist (app : String)
  | modelAlreadyExists (app : String) (model : String)
  deriving DecidableEq

/-- Association-list lookup, modelling Python dict lookup on unique keys. -/
def lookupAssoc {α : Type} : List (String × α) → String → Option α
  | [], _ => none
  | (k, v) :: rest, key => if k = key then some v else lookupAssoc rest key

/-- Python dict assignment d[k] = v with insertion order preserved: an existing
key keeps its position, a new key is appended at the end. -/
def pyInsert : List (String × PyVal) → String → PyVal → List (String × PyVal)
  | [], k, v => [(k, v)]
  | (k0, v0) :: rest, k, v =>
    if k0 = k then (k0, v) :: rest else (k0, v0) :: pyInsert rest k v

/-- Lookup in the all_arguments dict. -/
def pyLookup (m : List (String × PyVal)) (k : String) : Option PyVal :=
  lookupAssoc m k

/-- FieldGenerator.argument_map: the class-level table of format strings shared
by every field generator. -/
def argument_map : List (String × String) :=
  [("null", "null=True"),
   ("blank", "blank=True"),
   ("max_length", "max_length={value}"),
   ("default", "default={value}"),
   ("to", "to=\x27{value}\x27")]

/-- Expansion of tmpl.format with the value keyword: every occurrence of the
value placeholder in the template is replaced by the value characters. -/
def applyFormatAux (v : List Char) : List Char → List Char
  | '\x7b' :: 'v' :: 'a' :: 'l' :: 'u' :: 'e' :: '\x7d' :: rest =>
    v ++ applyFormatAux v rest
  | c :: rest => c :: applyFormatAux v rest
  | [] => []

/-- Python tmpl.format applied with the single keyword value. -/
def applyFormat (tmpl value : String) : String :=
  String.mk (applyFormatAux value.data tmpl.data)

/-- A field generator: dataclass FieldGenerator of the source.  The render
template and argument_map are class-level and shared, so only the per-instance
fields name and required_arguments are carried. -/
structure FieldGenerator where
  name : String
  required_arguments : Option (List RequiredArg) := none
  deriving DecidableEq

/-- Body of the first loop of FieldGenerator.parse_arguments for one raw
argument string: split on the equals sign; one segment is a bare keyword
looked up unguarded in argument_map (KeyError when absent), two or more
segments store the second segment under the first. -/
def collectOne (m : List (String × PyVal)) (argument : String) :
    Except CodegenError (List (String × PyVal)) :=
  match pySplit argument '=' with
  | [s0] =>
    match lookupAssoc argument_map argument with
    | none => .error (.keyError argument)
    | some fmt => .ok (pyInsert m s0 (.str fmt))
  | s0 :: s1 :: _ => .ok (pyInsert m s0 (.str s1))
  | [] => .ok m

/-- The first loop of parse_arguments over the whole raw-argument list. -/
def collectArguments (m : List (String × PyVal)) :
    List String → Except CodegenError (List (String × PyVal))
  | [] => .ok m
  | a :: rest =>
    match collectOne m a with
    | .error e => .error e
    | .ok m2 => collectArguments m2 rest

/-- One step of the required_arguments loop.  A bare name absent from the
collected dict raises that the argument is required; a typed tuple fills the
default when absent and then runs the conversion check, raising a TypeError
naming the argument and the type on failure. -/
def enforceOne (m : List (String × PyVal)) :
    RequiredArg → Except CodegenError (List (String × PyVal))
  | .bare n =>
    if (pyLookup m n).isNone then .error (.missingRequired n) else .ok m
  | .typed n ty d =>
    let m2 := if (pyLookup m n).isNone then pyInsert m n d else m
    match pyLookup m2 n with
    | some v =>
      if pyConvOk ty v then .ok m2
      else .error (.typeMismatch n (PyType.pyName ty))
    | none => .error (.keyError n)

/-- The required_arguments loop over a list of requirements, in order. -/
def enforceList (m : List (String × PyVal)) :
    List RequiredArg → Except CodegenError (List (String × PyVal))
  | [] => .ok m
  | r :: rest =>
    match enforceOne m r with
    | .error e => .error e
    | .ok m2 => enforceList m2 rest

/-- The guard if self.required_arguments plus the loop: None skips. -/
def enforceRequired (g : FieldGenerator) (m : List (String × PyVal)) :
    Except CodegenError (List (String × PyVal)) :=
  match g.required_arguments with
  | none => .ok m
  | some reqs => enforceList m reqs

/-- The final list comprehension of parse_arguments: for each collected key in
insertion order, argument_map.get is called; a missing key yields None and the
subsequent format call crashes (modelled as noneFormat), otherwise the format
string is expanded with the stored value. -/
def formatAll : List (String × PyVal) → Except CodegenError (List String)
  | [] => .ok []
  | (k, v) :: rest =>
    match lookupAssoc argument_map k with
    | none => .error (.noneFormat k)
    | some tmpl =>
      match formatAll rest with
      | .error e => .error e
      | .ok frags => .ok (applyFormat tmpl (pyStr v) :: frags)

/-- FieldGenerator.parse_arguments: collect, enforce requirements, format. -/
def FieldGenerator.parseArguments (g : FieldGenerator) (arguments : List String) :
    Except CodegenError (List String) :=
  match collectArguments [] arguments with
  | .error e => .error e
  | .ok m =>
    match enforceRequired g m with
    | .error e => .error e
    | .ok m2 => formatAll m2

/-- Comma join of the rendered argument fragments, as produced by the field
template of the source. -/
def joinArgs : List String → String
  | [] => ""
  | [a] => a
  | a :: b :: rest => a ++ ", " ++ joinArgs (b :: rest)

/-- FieldGenerator.render: parse the arguments and expand the field template
into one line name = models.Type(arg1, arg2, ...). -/
def FieldGenerator.render (g : FieldGenerator) (field_name : String)
    (arguments : List String) : Except CodegenError String :=
  match g.parseArguments arguments with
  | .error e => .error e
  | .ok parsed =>
    .ok (field_name ++ " = models." ++ g.name ++ "(" ++ joinArgs parsed ++ ")")

/-- The module-level generator instances of the source, in definition order. -/
def BigIntegerFieldGenerator : FieldGenerator := ⟨"BigIntegerField", none⟩

def BinaryFieldGenerator : FieldGenerator := ⟨"BinaryField", none⟩

def BooleanFieldGenerator : FieldGenerator := ⟨"BooleanField", none⟩

def CharFieldGenerator : FieldGenerator :=
  ⟨"CharField", some [RequiredArg.typed "max_length" PyType.int (PyVal.int 250)]⟩

def DateFieldGenerator : FieldGenerator := ⟨"DateField", none⟩

def DateTimeFieldGenerator : FieldGenerator := ⟨"DateTimeField", none⟩

def DecimalFieldGenerator : FieldGenerator := ⟨"DecimalField", none⟩

def DurationFieldGenerator : FieldGenerator := ⟨"DurationField", none⟩

def EmailFieldGenerator : FieldGenerator := ⟨"EmailField", none⟩

def FileFieldGenerator : FieldGenerator := ⟨"FileField", none⟩

def FilePathFieldGenerator : FieldGenerator := ⟨"FilePathField", none⟩

def FloatFieldGenerator : FieldGenerator := ⟨"FloatField", none⟩

def ImageFieldGenerator : FieldGenerator := ⟨"ImageField", none⟩

def IntegerFieldGenerator : FieldGenerator := ⟨"IntegerField", none⟩

def GenericIPAddressFieldGenerator : FieldGenerator := ⟨"GenericIPAddressField", none⟩

def NullBooleanFieldGenerator : FieldGenerator := ⟨"NullBooleanField", none⟩

def PositiveIntegerFieldGenerator : FieldGenerator := ⟨"PositiveIntegerField", none⟩

def PositiveSmallIntegerFieldGenerator : FieldGenerator :=
  ⟨"PositiveSmallIntegerField", none⟩

def SlugFieldGenerator : FieldGenerator := ⟨"SlugField", none⟩

def SmallAutoFieldGenerator : FieldGenerator := ⟨"SmallAutoField", none⟩

def SmallIntegerFieldGenerator : FieldGenerator := ⟨"SmallIntegerField", none⟩

def TextFieldGenerator : FieldGenerator := ⟨"TextField", none⟩

def TimeFieldGenerator : FieldGenerator := ⟨"TimeField", none⟩

def URLFieldGenerator : FieldGenerator := ⟨"URLField", none⟩

def UUIDFieldGenerator : FieldGenerator := ⟨"UUIDField", none⟩

def ForeignKeyGenerator : FieldGenerator :=
  ⟨"ForeignKey", some [RequiredArg.bare "to"]⟩

def OneToOneFieldGenerator : FieldGenerator :=
  ⟨"OneToOneField", some [RequiredArg.bare "to"]⟩

def ManyToManyFieldGenerator : FieldGenerator :=
  ⟨"ManyToManyField", some [RequiredArg.bare "to"]⟩

/-- FIELD_GENERATOR_REGISTRY: the dict filled by each post-init hook, listed
in module definition order; all keys are distinct so dict lookup is
association-list lookup. -/
def FIELD_GENERATOR_REGISTRY : List (String × FieldGenerator) :=
  [("BigIntegerField", BigIntegerFieldGenerator),
   ("BinaryField", BinaryFieldGenerator),
   ("BooleanField", BooleanFieldGenerator),
   ("CharField", CharFieldGenerator),
   ("DateField", DateFieldGenerator),
   ("DateTimeField", DateTimeFieldGenerator),
   ("DecimalField", DecimalFieldGenerator),
   ("DurationField", DurationFieldGenerator),
   ("EmailField", EmailFieldGenerator),
   ("FileField", FileFieldGenerator),
   ("FilePathField", FilePathFieldGenerator),
   ("FloatField", FloatFieldGenerator),
   ("ImageField", ImageFieldGenerator),
   ("IntegerField", IntegerFieldGenerator),
   ("GenericIPAddressField", GenericIPAddressFieldGenerator),
   ("NullBooleanField", NullBooleanFieldGenerator),
   ("PositiveIntegerField", PositiveIntegerFieldGenerator),
   ("PositiveSmallIntegerField", PositiveSmallIntegerFieldGenerator),
   ("SlugField", SlugFieldGenerator),
   ("SmallAutoField", SmallAutoFieldGenerator),
   ("SmallIntegerField", SmallIntegerFieldGenerator),
   ("TextField", TextFieldGenerator),
   ("TimeField", TimeFieldGenerator),
   ("URLField", URLFieldGenerator),
   ("UUIDField", UUIDFieldGenerator),
   ("ForeignKey", ForeignKeyGenerator),
   ("OneToOneField", OneToOneFieldGenerator),
   ("ManyToManyField", ManyToManyFieldGenerator)]

/-- ModelGenerator dataclass: the fields passed from the CLI command. -/
structure ModelGenerator where
  app_name : String
  model_name : String
  field_definitions : List (String × String × List String)
  ordering : Option String
  django_settings : Option String

/-- Body of ModelGenerator.get_fields: for each parsed definition in order,
look the type tag up in the registry (unguarded dict access, KeyError when
absent) and render the field line; the first failure aborts the loop. -/
def getFieldsList :
    List (String × String × List String) → Except CodegenError (List String)
  | [] => .ok []
  | (field_name, class_name, arguments) :: rest =>
    match lookupAssoc FIELD_GENERATOR_REGISTRY class_name with
    | none => .error (.keyError class_name)
    | some g =>
      match FieldGenerator.render g field_name arguments with
      | .error e => .error e
      | .ok line =>
        match getFieldsList rest with
        | .error e => .error e
        | .ok ls => .ok (line :: ls)

/-- ModelGenerator.get_fields. -/
def ModelGenerator.getFields (m : ModelGenerator) : Except CodegenError (List String) :=
  getFieldsList m.field_definitions

/-- One iteration of the field loop in the model template: with default Jinja
whitespace handling each field contributes a newline, indentation, the field
line, a newline and the closing indentation. -/
def fieldBlock (f : String) : String :=
  "\n    " ++ f ++ "\n    "

/-- Concatenation of the per-field blocks in list order. -/
def concatAll : List String → String
  | [] => ""
  | s :: rest => s ++ concatAll rest

/-- The ordering branch of the model template: Jinja renders it only when the
ordering value is truthy, so None and the empty string produce nothing. -/
def orderingClause : Option String → String
  | none => ""
  | some o => if o = "" then "" else "\n        ordering = \"" ++ o ++ "\""

/-- Hand expansion of the ModelGenerator.template Jinja string under default
Jinja semantics: header, Meta block with verbose names, optional ordering,
then the field loop, then the trailing indentation of the template. -/
def renderModelTemplate (model_name : String) (ordering : Option String)
    (fields : List String) : String :=
  "class " ++ model_name ++ "(models.Model):\n    class Meta:\n" ++
    "        verbose_name = \"" ++ model_name ++ "\"\n" ++
    "        verbose_name_plural = \"" ++ model_name ++ "s\"" ++
    orderingClause ordering ++ "\n    " ++
    concatAll (fields.map fieldBlock) ++ "\n    "

/-- ModelGenerator.render via BaseGenerator.render: get_fields then the model
template with the context of get_context. -/
def ModelGenerator.render (m : ModelGenerator) : Except CodegenError String :=
  match ModelGenerator.getFields m with
  | .error e => .error e
  | .ok fields => .ok (renderModelTemplate m.model_name m.ordering fields)

/-- ModelGenerator.check.  The framework introspection is the external
existence-check collaborator; its two answers are passed in as booleans:
appExists is membership of app_name in the app configs, modelExists is
membership of the lowercased model name in the models of that app. -/
def ModelGenerator.check (appExists modelExists : Bool) (m : ModelGenerator) :
    Except CodegenError Unit :=
  if appExists = false then .error (.appDoesNotExist m.app_name)
  else if modelExists = true then
    .error (.modelAlreadyExists m.app_name m.model_name)
  else .ok ()

/-- parse_field_definitions of generate.py: split each raw definition on the
colon; fewer than two segments abort with the malformed-definition exit, two
or more destructure into name, type and the remaining argument segments. -/
def parse_field_definitions :
    List String → Except CodegenError (List (String × String × List String))
  | [] => .ok []
  | d :: rest =>
    match pySplit d ':' with
    | field_name :: class_name :: arguments =>
      match parse_field_definitions rest with
      | .error e => .error e
      | .ok parsed => .ok ((field_name, class_name, arguments) :: parsed)
    | _ => .error (.malformedFieldDefinition d)

/-- The observable phases of the model command of generate.py. -/
inductive CmdStep where
  | parse
  | check
  | render
  deriving DecidableEq

/-- The model command of generate.py on the non-interactive path (all inputs
supplied; the prompt loop and the final confirm-and-write are external
collaborators).  Returns the list of phases that were executed, in execution
order, together with the outcome: the command parses the field definitions
first, then runs check, then render. -/
def modelCommand (appExists modelExists : Bool) (app_name model_name : String)
    (field_definitions : List String) (ordering django_settings : Option String) :
    List CmdStep × Except CodegenError String :=
  match parse_field_definitions field_definitions with
  | .error e => ([CmdStep.parse], .error e)
  | .ok fields =>
    let generator : ModelGenerator :=
      ⟨app_name, model_name, fields, ordering, django_settings⟩
    match ModelGenerator.check appExists modelExists generator with
    | .error e => ([CmdStep.parse, CmdStep.check], .error e)
    | .ok _ =>
      match ModelGenerator.render generator with
      | .error e => ([CmdStep.parse, CmdStep.check, CmdStep.render], .error e)
      | .ok rendered =>
        ([CmdStep.parse, CmdStep.check, CmdStep.render], .ok rendered)

/-- Per-definition pipeline of get_fields: registry lookup then field render.
Used to state that the field lines come from the definitions pointwise. -/
def fieldLine (d : String × String × List String) : Except CodegenError String :=
  match lookupAssoc FIELD_GENERATOR_REGISTRY d.2.1 with
  | none => .error (.keyError d.2.1)
  | some g => FieldGenerator.render g d.1 d.2.2

/-- Lookup after a dict assignment at the same key returns the new value. -/
theorem pyLookup_pyInsert_self (m : List (String × PyVal)) (k : String) (v : PyVal) :
    pyLookup (pyInsert m k v) k = some v := by
  induction m with
  | nil => simp [pyInsert, pyLookup, lookupAssoc]
  | cons hd tl ih =>
    obtain ⟨k0, v0⟩ := hd
    by_cases h : k0 = k
    · simp [pyInsert, pyLookup, lookupAssoc, h]
    · simp [pyInsert, pyLookup, lookupAssoc, h]
      simpa [pyLookup] using ih

/-- Assigning an absent key appends the pair at the end of the dict. -/
theorem pyInsert_of_none (m : List (String × PyVal)) (k : String) (v : PyVal)
    (h : pyLookup m k = none) : pyInsert m k v = m ++ [(k, v)] := by
  induction m with
  | nil => simp [pyInsert]
  | cons hd tl ih =>
    obtain ⟨k0, v0⟩ := hd
    by_cases hk : k0 = k
    · simp [pyLookup, lookupAssoc, hk] at h
    · simp [pyLookup, lookupAssoc, hk] at h
      simp [pyInsert, hk, ih h]

/-- Formatting a dict extended at the end with a supported key appends the
expanded fragment of that key to the fragments of the original dict. -/
theorem formatAll_append_one (m : List (String × PyVal)) (k : String) (v : PyVal)
    (tmpl : String) (frags : List String)
    (hm : formatAll m = .ok frags) (ht : lookupAssoc argument_map k = some tmpl) :
    formatAll (m ++ [(k, v)]) = .ok (frags ++ [applyFormat tmpl (pyStr v)]) := by
  induction m generalizing frags with
  | nil =>
    simp [formatAll] at hm
    subst hm
    simp [formatAll, ht]
  | cons hd tl ih =>
    obtain ⟨k0, v0⟩ := hd
    cases h0 : lookupAssoc argument_map k0 with
    | none => simp [formatAll, h0] at hm
    | some t0 =>
      cases h1 : formatAll tl with
      | error e => simp [formatAll, h0, h1] at hm
      | ok fr =>
        simp [formatAll, h0, h1] at hm
        subst hm
        simp [formatAll, h0, ih fr h1]

/-- If some collected key has no entry in argument_map, the final formatting
comprehension crashes at the first such key, with the None-format error. -/
theorem formatAll_err_of_unsupported (m : List (String × PyVal)) (k : String)
    (v : PyVal) (hmem : (k, v) ∈ m) (hk : lookupAssoc argument_map k = none) :
    ∃ k2 v2, (k2, v2) ∈ m ∧ lookupAssoc argument_map k2 = none ∧
      formatAll m = .error (.noneFormat k2) := by
  induction m with
  | nil => cases hmem
  | cons hd tl ih =>
    obtain ⟨k0, v0⟩ := hd
    cases h0 : lookupAssoc argument_map k0 with
    | none =>
      exact ⟨k0, v0, List.mem_cons_self _ _, h0, by simp [formatAll, h0]⟩
    | some t0 =>
      have hmem2 : (k, v) ∈ tl := by
        rcases List.mem_cons.mp hmem with h | h
        · injection h with he1 he2
          subst he1
          rw [hk] at h0
          cases h0
        · exact h
      obtain ⟨k2, v2, hm2, hn2, hf2⟩ := ih hmem2
      refine ⟨k2, v2, List.mem_cons_of_mem _ hm2, hn2, ?_⟩
      simp [formatAll, h0, hf2]

/-- A raw argument with at least one equals sign is always accepted by the
collection loop: the first segment becomes the key and the second segment the
stored value (later segments are discarded). -/
theorem collectOne_keyval (mm : List (String × PyVal)) (a k v : String)
    (rest : List String) (h : pySplit a '=' = k :: v :: rest) :
    collectOne mm a = .ok (pyInsert mm k (PyVal.str v)) := by
  unfold collectOne
  rw [h]

/-- A typed requirement with an absent key and a default passing the
conversion check fills the default at the end of the dict. -/
theorem enforceOne_typed_absent (m : List (String × PyVal)) (n : String)
    (ty : PyType) (d : PyVal) (h : pyLookup m n = none) (hc : pyConvOk ty d = true) :
    enforceOne m (RequiredArg.typed n ty d) = .ok (m ++ [(n, d)]) := by
  have hins := pyInsert_of_none m n d h
  have hl := pyLookup_pyInsert_self m n d
  rw [hins] at hl
  simp [enforceOne, h, hl, hc, hins]

/-- The field lines produced by the get_fields loop correspond pointwise, in
order, to the input field definitions. -/
theorem getFieldsList_index (defs : List (String × String × List String))
    (ls : List String) (h : getFieldsList defs = .ok ls) :
    ls.length = defs.length ∧
      ∀ i, i < defs.length →
        ∃ d l, defs[i]? = some d ∧ ls[i]? = some l ∧ fieldLine d = .ok l := by
  induction defs generalizing ls with
  | nil =>
    simp [getFieldsList] at h
    subst h
    exact ⟨rfl, fun i hi => absurd hi (by simp)⟩
  | cons hd tl ih =>
    obtain ⟨fn, cn, args⟩ := hd
    cases hg : lookupAssoc FIELD_GENERATOR_REGISTRY cn with
    | none => simp [getFieldsList, hg] at h
    | some g =>
      cases hr : FieldGenerator.render g fn args with
      | error e => simp [getFieldsList, hg, hr] at h
      | ok line =>
        cases ht : getFieldsList tl with
        | error e => simp [getFieldsList, hg, hr, ht] at h
        | ok tll =>
          simp [getFieldsList, hg, hr, ht] at h
          subst h
          obtain ⟨hlen, hidx⟩ := ih tll ht
          refine ⟨by simp [hlen], ?_⟩
          intro i hi
          cases i with
          | zero =>
            exact ⟨(fn, cn, args), line, by simp, by simp, by simp [fieldLine, hg, hr]⟩
          | succ j =>
            obtain ⟨d, l, hd1, hl1, hfl⟩ := hidx j (by simpa using hi)
            exact ⟨d, l, by simpa using hd1, by simpa using hl1, hfl⟩

/-- C1: the parser splits every raw field definition on the colon; with at
least two segments it yields the triple of first segment, second segment, and
the remaining segments in order; with fewer than two segments it fails with
the malformed-definition error.  In particular the age:IntegerField example
parses to the expected triple and the bare name example fails. -/
theorem c1_parse_splits_on_colon :
    (∀ (d : String) (defs : List String) (a b : String) (args : List String),
      pySplit d ':' = a :: b :: args →
      parse_field_definitions (d :: defs) =
        Except.map (fun t => (a, b, args) :: t) (parse_field_definitions defs)) ∧
    (∀ (d : String) (defs : List String), (pySplit d ':').length < 2 →
      parse_field_definitions (d :: defs) =
        .error (.malformedFieldDefinition d)) ∧
    parse_field_definitions ["age:IntegerField"] =
      .ok [("age", "IntegerField", [])] ∧
    parse_field_definitions ["name"] =
      .error (.malformedFieldDefinition ("name")) := by
  refine ⟨?_, ?_, rfl, rfl⟩
  · intro d defs a b args h
    cases hp : parse_field_definitions defs with
    | error e => simp [parse_field_definitions, h, hp, Except.map]
    | ok p => simp [parse_field_definitions, h, hp, Except.map]
  · intro d defs h
    cases hs : pySplit d ':' with
    | nil => simp [parse_field_definitions, hs]
    | cons x xs =>
      cases xs with
      | nil => simp [parse_field_definitions, hs]
      | cons y ys =>
        rw [hs] at h
        simp at h
        omega

/-- C1 witness: a concrete definition with two argument segments parses to the
triple with both segments kept in order. -/
theorem c1_witness :
    parse_field_definitions ["x:Y:u:v"] = .ok [("x", "Y", ["u", "v"])] := by
  have h := c1_parse_splits_on_colon.1 ("x:Y:u:v") [] ("x") ("Y") ["u", "v"] rfl
  simpa [parse_field_definitions, Except.map] using h

/-- C2: a bare raw argument whose keyword has no entry in argument_map makes
the collection loop crash with an unguarded KeyError instead of failing with
a typed unsupported-argument error; evaluated at the failing input, an
IntegerField field with the bare argument unique. -/
theorem c2_unguarded_keyword_crash :
    lookupAssoc argument_map ("unique") = none ∧
    collectArguments [] ["unique"] = .error (.keyError ("unique")) ∧
    FieldGenerator.parseArguments IntegerFieldGenerator ["unique"] =
      .error (.keyError ("unique")) :=
  ⟨rfl, rfl, rfl⟩

/-- C3 counterexample: resolving the raw argument default=a=b stores the raw
value a, not the full remainder a=b as the claim states. -/
theorem c3_counterexample :
    collectArguments [] ["default=a=b"] = .ok [("default", PyVal.str ("a"))] ∧
    PyVal.str ("a") ≠ PyVal.str ("a=b") :=
  ⟨rfl, by decide⟩

/-- C3 amended: a raw argument containing at least one equals sign is split on
every equals sign; the first segment becomes the key and the second segment
becomes the raw value, any later segments being discarded; in particular
default=a=b yields the key default with raw value a. -/
theorem c3_amended_split :
    (∀ (mm : List (String × PyVal)) (a k v : String) (rest : List String),
      pySplit a '=' = k :: v :: rest →
      collectOne mm a = .ok (pyInsert mm k (PyVal.str v))) ∧
    collectArguments [] ["default=a=b"] = .ok [("default", PyVal.str ("a"))] :=
  ⟨fun mm a k v rest h => collectOne_keyval mm a k v rest h, rfl⟩

/-- C3 witness: the amended statement evaluated on a concrete key=value
argument. -/
theorem c3_witness :
    collectOne [] ("x=1") = .ok [("x", PyVal.str ("1"))] :=
  c3_amended_split.1 [] ("x=1") ("x") ("1") [] rfl

/-- C4: a CharField whose collected arguments lack max_length gets the default
250 appended by requirement enforcement, the integer conversion of the default
succeeds, and the rendered fragment for it is exactly max_length=250. -/
theorem c4_charfield_default (args : List String) (m : List (String × PyVal))
    (h1 : collectArguments [] args = .ok m)
    (h2 : pyLookup m ("max_length") = none) :
    enforceRequired CharFieldGenerator m =
      .ok (m ++ [("max_length", PyVal.int 250)]) ∧
    pyConvOk PyType.int (PyVal.int 250) = true ∧
    ∀ frags, formatAll m = .ok frags →
      FieldGenerator.parseArguments CharFieldGenerator args =
        .ok (frags ++ ["max_length=250"]) := by
  have h0 := enforceOne_typed_absent m ("max_length") PyType.int (PyVal.int 250) h2 rfl
  have henf : enforceRequired CharFieldGenerator m =
      .ok (m ++ [("max_length", PyVal.int 250)]) := by
    simp [enforceRequired, CharFieldGenerator, enforceList, h0]
  refine ⟨henf, rfl, ?_⟩
  intro frags hf
  have hfmt := formatAll_append_one m ("max_length") (PyVal.int 250)
    ("max_length={value}") frags hf rfl
  have hexp : applyFormat ("max_length={value}") (pyStr (PyVal.int 250)) =
      "max_length=250" := rfl
  rw [hexp] at hfmt
  simp [FieldGenerator.parseArguments, h1, henf, hfmt]

/-- C4 witness: a CharField with no arguments at all renders exactly the
default fragment. -/
theorem c4_witness :
    FieldGenerator.parseArguments CharFieldGenerator [] =
      .ok ["max_length=250"] := by
  have h := (c4_charfield_default [] [] rfl rfl).2.2 [] rfl
  simpa using h

/-- C5: for a generator whose required arguments are a single typed integer
requirement, if the supplied value (or, when absent, the default) fails the
integer conversion, resolution fails with the type-mismatch error naming the
argument and the int type. -/
theorem c5_type_mismatch (g : FieldGenerator) (n : String) (d : PyVal)
    (args : List String) (m : List (String × PyVal)) (v : PyVal)
    (hreq : g.required_arguments = some [RequiredArg.typed n PyType.int d])
    (h1 : collectArguments [] args = .ok m)
    (h2 : pyLookup m n = some v ∨ (pyLookup m n = none ∧ v = d))
    (h3 : pyConvOk PyType.int v = false) :
    FieldGenerator.parseArguments g args = .error (.typeMismatch n ("int")) := by
  have henf : enforceOne m (RequiredArg.typed n PyType.int d) =
      .error (.typeMismatch n ("int")) := by
    rcases h2 with h2 | ⟨h2, rfl⟩
    · simp [enforceOne, h2, h3, PyType.pyName]
    · have hins := pyInsert_of_none m n v h2
      have hl := pyLookup_pyInsert_self m n v
      rw [hins] at hl
      simp [enforceOne, h2, hins, hl, h3, PyType.pyName]
  simp [FieldGenerator.parseArguments, h1, enforceRequired, hreq, enforceList, henf]

/-- C5 witness: a CharField with the raw argument max_length=abc fails with
the type-mismatch error naming max_length and int. -/
theorem c5_witness :
    FieldGenerator.parseArguments CharFieldGenerator ["max_length=abc"] =
      .error (.typeMismatch ("max_length") ("int")) :=
  c5_type_mismatch CharFieldGenerator ("max_length") (PyVal.int 250)
    ["max_length=abc"] [("max_length", PyVal.str ("abc"))] (PyVal.str ("abc"))
    rfl rfl (Or.inl rfl) rfl

/-- C6: for a generator whose required arguments are a single bare name, if
that name is absent from the collected argument dict, resolution fails with
the missing-required error naming it. -/
theorem c6_missing_required (g : FieldGenerator) (n : String)
    (args : List String) (m : List (String × PyVal))
    (hreq : g.required_arguments = some [RequiredArg.bare n])
    (h1 : collectArguments [] args = .ok m)
    (h2 : pyLookup m n = none) :
    FieldGenerator.parseArguments g args = .error (.missingRequired n) := by
  simp [FieldGenerator.parseArguments, h1, enforceRequired, hreq, enforceList,
    enforceOne, h2]

/-- C6 witness: a ForeignKey field with no arguments fails with the
missing-required error naming the to argument. -/
theorem c6_witness :
    FieldGenerator.parseArguments ForeignKeyGenerator [] =
      .error (.missingRequired ("to")) :=
  c6_missing_required ForeignKeyGenerator ("to") [] [] rfl rfl rfl

/-- C7: when a field definition carries a type tag absent from the registry
and every earlier definition rendered successfully, get_fields fails with the
registry KeyError on that tag (the realization of the unknown-field-type
failure), and the result does not depend on the name or arguments of the
offending field nor on any definition after it, so no rendering work is done
for that field or any subsequent field. -/
theorem c7_unknown_type (pre : List (String × String × List String))
    (ls : List String) (fn cn : String) (args : List String)
    (suffix : List (String × String × List String))
    (hpre : getFieldsList pre = .ok ls)
    (habs : lookupAssoc FIELD_GENERATOR_REGISTRY cn = none) :
    getFieldsList (pre ++ (fn, cn, args) :: suffix) = .error (.keyError cn) := by
  induction pre generalizing ls with
  | nil => simp [getFieldsList, habs]
  | cons hd tl ih =>
    obtain ⟨f0, c0, a0⟩ := hd
    cases hg : lookupAssoc FIELD_GENERATOR_REGISTRY c0 with
    | none => simp [getFieldsList, hg] at hpre
    | some g =>
      cases hr : FieldGenerator.render g f0 a0 with
      | error e => simp [getFieldsList, hg, hr] at hpre
      | ok line =>
        cases ht : getFieldsList tl with
        | error e => simp [getFieldsList, hg, hr, ht] at hpre
        | ok tll =>
          simp [getFieldsList, hg, hr, ih tll ht]

/-- C7 witness: a Foo type tag after a valid IntegerField definition aborts
with the KeyError on Foo, whatever the arguments of the bad field are. -/
theorem c7_witness :
    getFieldsList [("age", "IntegerField", []), ("x", "Foo", ["null"])] =
      .error (.keyError ("Foo")) :=
  c7_unknown_type [("age", "IntegerField", [])] ["age = models.IntegerField()"]
    ("x") ("Foo") ["null"] [] rfl rfl

/-- C8: when get_fields succeeds, it produces exactly one line per input
field definition, the line at every index being the rendering of the
definition at the same index (no reordering, no deduplication), and the
assembled class source embeds those lines through the model template in that
same order. -/
theorem c8_field_order (defs : List (String × String × List String))
    (ls : List String) (h : getFieldsList defs = .ok ls) :
    ls.length = defs.length ∧
    (∀ i, i < defs.length →
      ∃ d l, defs[i]? = some d ∧ ls[i]? = some l ∧ fieldLine d = .ok l) ∧
    ∀ (a mn : String) (o s : Option String),
      ModelGenerator.render ⟨a, mn, defs, o, s⟩ =
        .ok (renderModelTemplate mn o ls) := by
  obtain ⟨h1, h2⟩ := getFieldsList_index defs ls h
  refine ⟨h1, h2, ?_⟩
  intro a mn o s
  simp [ModelGenerator.render, ModelGenerator.getFields, h]

/-- C8 witness: two concrete fields given in a non-alphabetical order come out
of the assembler in exactly that order. -/
theorem c8_witness :
    ModelGenerator.render
        ⟨("blog"), ("Post"), [("b", "IntegerField", []), ("a", "BooleanField", [])],
          none, none⟩ =
      .ok (renderModelTemplate ("Post") none
        ["b = models.IntegerField()", "a = models.BooleanField()"]) :=
  (c8_field_order [("b", "IntegerField", []), ("a", "BooleanField", [])]
    ["b = models.IntegerField()", "a = models.BooleanField()"] rfl).2.2
    ("blog") ("Post") none none

/-- C9 counterexample: on a run whose app does not exist, the command still
executes the parse phase before reporting the precondition error, so the
claim that no parsing has been executed when a precondition fails is false. -/
theorem c9_counterexample :
    (modelCommand false false ("blog") ("Post") ["age:IntegerField"] none none).2 =
      .error (.appDoesNotExist ("blog")) ∧
    CmdStep.parse ∈
      (modelCommand false false ("blog") ("Post") ["age:IntegerField"] none none).1 :=
  ⟨rfl, by decide⟩

/-- C9 amended: the precondition errors are detected after the field
definitions have been parsed but before any validation or rendering: whenever
parsing succeeds and the app is missing or the model already exists, the
executed phases are exactly parse then check, the reported outcome is the
corresponding precondition error, and the render phase never ran. -/
theorem c9_amended (appExists modelExists : Bool) (a mn : String)
    (fdefs : List String) (o s : Option String)
    (parsed : List (String × String × List String))
    (hp : parse_field_definitions fdefs = .ok parsed)
    (hfail : appExists = false ∨ modelExists = true) :
    (modelCommand appExists modelExists a mn fdefs o s).1 =
      [CmdStep.parse, CmdStep.check] ∧
    (appExists = false →
      (modelCommand appExists modelExists a mn fdefs o s).2 =
        .error (.appDoesNotExist a)) ∧
    (appExists = true → modelExists = true →
      (modelCommand appExists modelExists a mn fdefs o s).2 =
        .error (.modelAlreadyExists a mn)) ∧
    CmdStep.render ∉ (modelCommand appExists modelExists a mn fdefs o s).1 := by
  have hcmd : modelCommand appExists modelExists a mn fdefs o s =
      ([CmdStep.parse, CmdStep.check],
        if appExists = false then Except.error (.appDoesNotExist a)
        else Except.error (.modelAlreadyExists a mn)) := by
    cases appExists with
    | false => simp [modelCommand, hp, ModelGenerator.check]
    | true =>
      cases modelExists with
      | false => simp at hfail
      | true => simp [modelCommand, hp, ModelGenerator.check]
  refine ⟨by rw [hcmd], ?_, ?_, ?_⟩
  · intro h
    subst h
    rw [hcmd]
    simp
  · intro h1 h2
    subst h1
    rw [hcmd]
    simp
  · rw [hcmd]
    simp

/-- C9 amended witness: with a missing app and a well-formed definition list
the command reports the missing-app error, parsing having already run. -/
theorem c9_amended_witness :
    (modelCommand false false ("shop") ("Item") ["name:TextField"] none none).2 =
      .error (.appDoesNotExist ("shop")) :=
  (c9_amended false false ("shop") ("Item") ["name:TextField"] none none
    [("name", "TextField", [])] rfl (Or.inl rfl)).2.1 rfl

/-- C10: a key=value raw argument is always accepted by the collection loop
with no typed validation, and when a collected key is not one of the
argument_map keys while collection and requirement enforcement both succeed,
the whole resolution fails only at the final formatting step, with the
untyped crash of calling format on the None returned by argument_map.get. -/
theorem c10_unsupported_key :
    (∀ (mm : List (String × PyVal)) (a k v : String) (rest : List String),
      pySplit a '=' = k :: v :: rest →
      collectOne mm a = .ok (pyInsert mm k (PyVal.str v))) ∧
    (∀ (g : FieldGenerator) (args : List String)
      (m m2 : List (String × PyVal)) (k : String) (v : PyVal),
      collectArguments [] args = .ok m →
      enforceRequired g m = .ok m2 →
      (k, v) ∈ m2 →
      lookupAssoc argument_map k = none →
      ∃ k2 v2, (k2, v2) ∈ m2 ∧ lookupAssoc argument_map k2 = none ∧
        FieldGenerator.parseArguments g args = .error (.noneFormat k2)) := by
  refine ⟨fun mm a k v rest h => collectOne_keyval mm a k v rest h, ?_⟩
  intro g args m m2 k v hc he hmem hk
  obtain ⟨k2, v2, hm2, hn2, hf2⟩ := formatAll_err_of_unsupported m2 k v hmem hk
  exact ⟨k2, v2, hm2, hn2, by simp [FieldGenerator.parseArguments, hc, he, hf2]⟩

/-- C10 witness: an IntegerField with the raw argument foo=bar is collected
without error and crashes only at the formatting step with the None-format
failure on foo. -/
theorem c10_witness :
    ∃ k2 v2, (k2, v2) ∈ [(("foo" : String), PyVal.str ("bar"))] ∧
      lookupAssoc argument_map k2 = none ∧
      FieldGenerator.parseArguments IntegerFieldGenerator ["foo=bar"] =
        .error (.noneFormat k2) :=
  c10_unsupported_key.2 IntegerFieldGenerator ["foo=bar"]
    [("foo", PyVal.str ("bar"))] [("foo", PyVal.str ("bar"))]
    ("foo") (PyVal.str ("bar")) rfl rfl (by decide) rfl
